import Mathlib

/-!
Shallow embedding of cubeviz/layout.py (class CubeVizLayout), the
layout/controller layer of the CubeViz multi-panel cube visualization tool.

The layout owns four cube viewers (one single viewer plus
DEFAULT_NUM_SPLIT_VIEWERS = 3 split viewers, held in the list cube_views,
with single_view = cube_views[0] and split_views = cube_views[1:]), one
specviz spectral viewer, four viewer combo boxes, a slice controller and
assorted bookkeeping flags.  Methods of CubeVizLayout are embedded as
functions on a CubeVizLayout state record; methods that can raise an
AttributeError or index error in Python (for example dereferencing
self._active_cube when it is None) return Option, with none standing for
the raised exception.

Code of the repository that the claims depend on but that is not part of
the sources (image_viewer.py, controls/slice.py) is modelled from the
spec; each such definition carries a doc comment starting
`Modelled from the spec:`.
-/

/-- Number of split (parallel) image viewers, DEFAULT_NUM_SPLIT_VIEWERS in
layout.py. -/
def DEFAULT_NUM_SPLIT_VIEWERS : Nat := 3

/-- A data component: a named data array attached to a dataset.  The field
ndim records the dimensionality of the array (component.parent[label].ndim
in the source); id distinguishes components. -/
structure Component where
  id : Nat
  ndim : Nat
deriving DecidableEq

/-- State of the statistics axes of a cube viewer: either hidden or drawn
for a given combo selection and subset. -/
inductive StatsAxes
  | hidden
  | drawn (selection : Option Component) (subset : Nat)
deriving DecidableEq

/-- Modelled from the spec: the state of one CubevizImageViewer panel
(image_viewer.py is not among the sources).  A cube viewer renders one 2-D
slice of a 3-D data cube; it carries a synced flag, the slice index
currently displayed, the displayed component, its matplotlib axes position
and frozen margins, and flags used by the layout bookkeeping. -/
structure CubevizImageViewer where
  synced : Bool
  slice_index : Nat
  has_2d_data : Bool
  is_smoothing_preview_active : Bool
  displayed_component : Option Component
  hidden_axes : Bool
  axes_position : List Int
  axes_margins : List Int
  stats_axes : StatsAxes
  toolbar_visible : Bool
  stats_visible : Bool
deriving DecidableEq

/-- Modelled from the spec: CubevizImageViewer.update_slice_index displays
the given position along the cube's third axis, i.e. sets the viewer's
slice index to it. -/
def CubevizImageViewer.update_slice_index (v : CubevizImageViewer) (index : Nat) :
    CubevizImageViewer :=
  { v with slice_index := index }

/-- Modelled from the spec: CubevizImageViewer.draw_stats_axes draws the
statistics axes for the given combo selection and subset. -/
def CubevizImageViewer.draw_stats_axes (v : CubevizImageViewer)
    (selection : Option Component) (subset : Nat) : CubevizImageViewer :=
  { v with stats_axes := StatsAxes.drawn selection subset }

/-- Modelled from the spec: CubevizImageViewer.hide_stats_axes hides the
statistics axes of the viewer. -/
def CubevizImageViewer.hide_stats_axes (v : CubevizImageViewer) :
    CubevizImageViewer :=
  { v with stats_axes := StatsAxes.hidden }

/-- Modelled from the spec: CubevizImageViewer.toggle_hidden_axes sets
whether the viewer's axes decorations are hidden. -/
def CubevizImageViewer.toggle_hidden_axes (v : CubevizImageViewer) (hide : Bool) :
    CubevizImageViewer :=
  { v with hidden_axes := hide }

/-- Modelled from the spec: CubevizImageViewer.update_component makes the
viewer display the given component. -/
def CubevizImageViewer.update_component (v : CubevizImageViewer) (c : Component) :
    CubevizImageViewer :=
  { v with displayed_component := some c }

/-- Modelled from the spec: CubevizImageViewer.set_smoothing_preview sets up
on-the-fly smoothing; the preview function and title have no effect on the
modelled state beyond activating the preview. -/
def CubevizImageViewer.set_smoothing_preview (v : CubevizImageViewer) :
    CubevizImageViewer :=
  { v with is_smoothing_preview_active := true }

/-- Modelled from the spec: CubevizImageViewer.end_smoothing_preview stops
the on-the-fly smoothing preview. -/
def CubevizImageViewer.end_smoothing_preview (v : CubevizImageViewer) :
    CubevizImageViewer :=
  { v with is_smoothing_preview_active := false }

/-- Modelled from the spec: CubevizImageViewer.set_stats_visible sets
whether subset statistics are displayed. -/
def CubevizImageViewer.set_stats_visible (v : CubevizImageViewer) (b : Bool) :
    CubevizImageViewer :=
  { v with stats_visible := b }

/-- Modelled from the spec: the slice controller (controls/slice.py is not
among the sources) tracks whether the slice slider is enabled and the
slice index it currently shows. -/
structure SliceController where
  enabled : Bool
  index : Nat
deriving DecidableEq

/-- Modelled from the spec: SliceController.update_index records the given
slice index in the slice controller. -/
def SliceController.update_index (c : SliceController) (index : Nat) :
    SliceController :=
  { c with index := index }

/-- Modelled from the spec: SliceController.set_enabled enables or disables
the slice slider. -/
def SliceController.set_enabled (c : SliceController) (b : Bool) :
    SliceController :=
  { c with enabled := b }

/-- A viewer combo box (a Qt QComboBox): an ordered list of items whose user
data are components, and the index of the current selection (-1 when there
is no selection, as in Qt). -/
structure ComboBox where
  items : List Component
  currentIndex : Int
deriving DecidableEq

/-- QComboBox.currentData: the user data of the current item, or none when
no item is selected. -/
def ComboBox.currentData (c : ComboBox) : Option Component :=
  if 0 ≤ c.currentIndex then c.items.get? c.currentIndex.toNat else none

/-- QComboBox.findData: the index of the first item holding the given data,
or -1 when there is none (also for data None). -/
def ComboBox.findData (c : ComboBox) (d : Option Component) : Int :=
  match d with
  | none => -1
  | some comp =>
    match c.items.findIdx? (fun x => decide (x = comp)) with
    | some i => (i : Int)
    | none => -1

/-- A ComponentIDComboHelper for one viewer combo; its selection is the
component currently selected. -/
structure ComponentIDComboHelper where
  selection : Option Component
deriving DecidableEq

/-- A hub message, distinguished by isinstance checks in the source:
SettingsChangeMessage, SubsetUpdateMessage, SubsetDeleteMessage, or any
other message type. -/
inductive Message
  | settingsChangeMessage
  | subsetUpdateMessage (subset : Nat)
  | subsetDeleteMessage (subset : Nat)
  | otherMessage
deriving DecidableEq

/-- Reference to one of the layout's sub-windows: the i-th cube viewer
(cube_views[i]) or the specviz spectral viewer.  Python compares these
widget wrappers by object identity; distinct constructors and indices are
distinct objects. -/
inductive ViewRef
  | cube (i : Nat)
  | specviz
deriving DecidableEq

/-- Map an indexed mutating for-loop over a list: mapWithIndex f i [a, b]
is [f i a, f (i+1) b]. -/
def mapWithIndex (f : Nat → α → β) : Nat → List α → List β
  | _, [] => []
  | i, a :: as => f i a :: mapWithIndex f (i + 1) as

/-- The modelled state of a CubeVizLayout widget.  The four cube viewer
combo boxes (single_viewer_combo, viewer1_combo, viewer2_combo,
viewer3_combo) are held in the list combos at indices 0..3, matching
get_viewer_combo. -/
structure CubeVizLayout where
  cube_views : List CubevizImageViewer
  combos : List ComboBox
  hub_registrations : List ViewRef
  has_data : Bool
  single_viewer_mode : Bool
  button_toggle_image_mode_text : String
  viewer_control_frame_index : Nat
  active_view : Option ViewRef
  active_cube : Option ViewRef
  last_active_view : Option ViewRef
  active_split_cube : Option ViewRef
  viewer_combo_helpers : List ComponentIDComboHelper
  viewer_axes_positions : List (List Int × List Int)
  toolbars_visible : Bool
  stats_visible : Bool
  sync : List (String × List (Nat × Nat))
  synced_index : Option Nat
  slice_controller : SliceController
  original_components : List (Nat × Option Component)
deriving DecidableEq

/-- Modelled from the spec: the initial state of a cube viewer panel as
constructed in CubeVizLayout.__init__ (its constructor lives in
image_viewer.py, not among the sources): nothing displayed yet, not
synced, slice index 0. -/
def initViewer : CubevizImageViewer :=
  { synced := false
    slice_index := 0
    has_2d_data := false
    is_smoothing_preview_active := false
    displayed_component := none
    hidden_axes := false
    axes_position := []
    axes_margins := []
    stats_axes := StatsAxes.hidden
    toolbar_visible := true
    stats_visible := true }

/-- The cube viewers created by the construction loop
`for _ in range(DEFAULT_NUM_SPLIT_VIEWERS + 1)`. -/
def initCubeViews : List CubevizImageViewer :=
  (List.range (DEFAULT_NUM_SPLIT_VIEWERS + 1)).map (fun _ => initViewer)

/-- Hub registrations performed during construction, in order: each cube
viewer is registered to the session hub as it is created, then the specviz
viewer is registered. -/
def initHubRegistrations : List ViewRef :=
  (List.range (DEFAULT_NUM_SPLIT_VIEWERS + 1)).map ViewRef.cube ++ [ViewRef.specviz]

/-- An empty disabled Qt combo box (no items, no selection). -/
def initCombo : ComboBox :=
  { items := [], currentIndex := -1 }

/-- The state built by CubeVizLayout.__init__: four cube viewers and the
specviz viewer registered to the hub, no data yet, no active view, split
image mode as the default, button text 'Single Image Viewer', control
frame index 0, empty helper and axes-position bookkeeping lists. -/
def CubeVizLayout.init : CubeVizLayout :=
  { cube_views := initCubeViews
    combos := (List.range (DEFAULT_NUM_SPLIT_VIEWERS + 1)).map (fun _ => initCombo)
    hub_registrations := initHubRegistrations
    has_data := false
    single_viewer_mode := false
    button_toggle_image_mode_text := "Single Image Viewer"
    viewer_control_frame_index := 0
    active_view := none
    active_cube := none
    last_active_view := none
    active_split_cube := none
    viewer_combo_helpers := []
    viewer_axes_positions := []
    toolbars_visible := true
    stats_visible := true
    sync := []
    synced_index := none
    slice_controller := { enabled := false, index := 0 }
    original_components := [] }

/-- CubeVizLayout.subWindowList: `return self.cube_views + [self.specviz]`,
as references to the layout's sub-windows. -/
def CubeVizLayout.subWindowList (st : CubeVizLayout) : List ViewRef :=
  (List.range st.cube_views.length).map ViewRef.cube ++ [ViewRef.specviz]

/-- CubeVizLayout._on_sync_click: read the active cube's slice index, set
every cube viewer's synced flag to True, update the slice index of every
cube viewer other than the active cube to the active cube's index, and
update the slice controller's index to it.  Dereferencing a None active
cube (or an active cube whose widget is not a cube viewer) raises in
Python; these cases return none. -/
def CubeVizLayout.on_sync_click (st : CubeVizLayout) : Option CubeVizLayout :=
  match st.active_cube with
  | some (ViewRef.cube i) =>
    match st.cube_views.get? i with
    | some active =>
      let index := active.slice_index
      let views := mapWithIndex (fun j view =>
        let view := { view with synced := true }
        if ViewRef.cube j = ViewRef.cube i then view
        else view.update_slice_index index) 0 st.cube_views
      some { st with cube_views := views
                     slice_controller := st.slice_controller.update_index index }
    | none => none
  | _ => none

/-- The pan/zoom attributes synced by _setup_syncing. -/
def pan_zoom_attributes : List String := ["x_min", "x_max", "y_min", "y_max"]

/-- CubeVizLayout._setup_syncing: for each pan/zoom attribute, install
keep_in_sync bindings between split_views[0] and split_views[1] and
between split_views[1] and split_views[2]; since split_views[k] is
cube_views[k+1], the recorded binding pairs are (1, 2) and (2, 3) in
cube-viewer indices.  Then call _on_sync_click. -/
def CubeVizLayout.setup_syncing (st : CubeVizLayout) : Option CubeVizLayout :=
  let st := { st with
    sync := pan_zoom_attributes.map (fun attr_name => (attr_name, [(1, 2), (2, 3)])) }
  st.on_sync_click

/-- Whether a keep_in_sync binding links viewers a and b directly. -/
def linked (links : List (Nat × Nat)) (a b : Nat) : Bool :=
  links.any (fun p => (p.1 == a && p.2 == b) || (p.1 == b && p.2 == a))

/-- One expansion step of the set of viewers reached by change
propagation: add every viewer below the bound directly linked to one
already reached. -/
def reachableStep (links : List (Nat × Nat)) (bound : Nat) (acc : List Nat) :
    List Nat :=
  acc ++ (List.range bound).filter
    (fun j => !(acc.contains j) && acc.any (fun a => linked links a j))

/-- Iterate the expansion step. -/
def reachableIter (links : List (Nat × Nat)) (bound : Nat) :
    Nat → List Nat → List Nat
  | 0, acc => acc
  | n + 1, acc => reachableIter links bound n (reachableStep links bound acc)

/-- Whether viewer j is reached from viewer i through the keep_in_sync
bindings (iterating the expansion step bound times reaches a fixpoint for
any graph on viewers 0..bound-1). -/
def reachable (links : List (Nat × Nat)) (bound i j : Nat) : Bool :=
  (reachableIter links bound bound [i]).contains j

/-- Change propagation through the keep_in_sync bindings of
glue.external.echo (an external library): each binding keeps one attribute
of two viewer states identical, any change to either side being copied to
the other.  When viewer i's value of a pan/zoom attribute is set to v, the
value therefore propagates to every viewer reachable from i through the
bindings; every other viewer keeps its previous value.  The bound 4 is the
number of cube viewers. -/
def propagateChange (links : List (Nat × Nat)) (vals : Nat → Int) (i : Nat)
    (v : Int) : Nat → Int :=
  fun j => if reachable links 4 i j then v else vals j

/-- The binding pairs recorded in self.sync for a given attribute (an empty
list when the attribute has no entry). -/
def syncLinksFor (st : CubeVizLayout) (attr_name : String) : List (Nat × Nat) :=
  match st.sync.find? (fun p => p.1 == attr_name) with
  | some p => p.2
  | none => []

/-- CubeVizLayout._update_active_view, the slot connected to the
subWindowActivated signal.  Before data is loaded (_has_data False) it
does nothing.  Otherwise it records the view as active; if the view's
widget is a cube viewer it also becomes the active cube and the slice
controller is disabled (2-d data) or enabled and updated to the view's
slice index.  Emitting the signal with None while data is loaded
dereferences None._widget and raises; this returns none. -/
def CubeVizLayout.update_active_view (st : CubeVizLayout) (view : Option ViewRef) :
    Option CubeVizLayout :=
  if st.has_data then
    match view with
    | none => none
    | some v =>
      let st1 := { st with active_view := some v }
      match v with
      | ViewRef.specviz => some st1
      | ViewRef.cube i =>
        match st1.cube_views.get? i with
        | none => none
        | some w =>
          let st2 := { st1 with active_cube := some (ViewRef.cube i) }
          if w.has_2d_data then
            some { st2 with slice_controller := st2.slice_controller.set_enabled false }
          else
            some { st2 with slice_controller :=
              (st2.slice_controller.set_enabled true).update_index w.slice_index }
  else some st

/-- The if/else branch of CubeVizLayout._toggle_image_mode: moving to
split mode restores the active split cube, clears the mode flag, sets the
button text to 'Single Image Viewer' and control frame 0, and (when the
single viewer is synced) updates each synced split viewer's slice index to
the single viewer's; moving to single mode saves the active cube as the
active split cube, makes the single view active, sets the mode flag, sets
the button text to 'Split Image Viewer' and control frame 1.  The splitter
geometry set by _activate_single_image_mode and _activate_split_image_mode
is not part of the modelled state. -/
def CubeVizLayout.toggle_branch (st : CubeVizLayout) : Option CubeVizLayout :=
  if st.single_viewer_mode then
    let st := { st with active_cube := st.active_split_cube
                        single_viewer_mode := false
                        button_toggle_image_mode_text := "Single Image Viewer"
                        viewer_control_frame_index := 0 }
    match st.cube_views.get? 0 with
    | none => none
    | some single =>
      let views := mapWithIndex (fun j view =>
        if j == 0 then view
        else if single.synced && view.synced then
          view.update_slice_index single.slice_index
        else view) 0 st.cube_views
      some { st with cube_views := views }
  else
    some { st with active_split_cube := st.active_cube
                   active_view := some (ViewRef.cube 0)
                   active_cube := some (ViewRef.cube 0)
                   single_viewer_mode := true
                   button_toggle_image_mode_text := "Split Image Viewer"
                   viewer_control_frame_index := 1 }

/-- The last statement of CubeVizLayout._toggle_image_mode:
`self._slice_controller.update_index(self._active_cube._widget.slice_index)`,
raising when the active cube is None or not a cube viewer. -/
def CubeVizLayout.toggle_finish (st : CubeVizLayout) : Option CubeVizLayout :=
  match st.active_cube with
  | some (ViewRef.cube i) =>
    match st.cube_views.get? i with
    | none => none
    | some w =>
      some { st with slice_controller := st.slice_controller.update_index w.slice_index }
  | _ => none

/-- CubeVizLayout._toggle_image_mode: swap the _last_active_view and
_active_view bookkeeping, run the mode branch, let the subWindowActivated
signal run _update_active_view on the previous last active view, and
finally update the slice controller's index to the (possibly reassigned)
active cube's slice index. -/
def CubeVizLayout.toggle_image_mode (st : CubeVizLayout) : Option CubeVizLayout :=
  let new_active_view := st.last_active_view
  let st := { st with last_active_view := st.active_view }
  match st.toggle_branch with
  | none => none
  | some st =>
    match st.update_active_view new_active_view with
    | none => none
    | some st => st.toggle_finish

/-- CubeVizLayout._set_pos_and_margin applied to a viewer's axes:
axes.set_position(pos) followed by freeze_margins(axes, marg). -/
def set_pos_and_margin (view : CubevizImageViewer) (pos marg : List Int) :
    CubevizImageViewer :=
  { view with axes_position := pos, axes_margins := marg }

/-- CubeVizLayout._hide_viewer_axes: for each cube viewer, hide the axes
decorations, append the current (position, margins) pair to
_viewer_axes_positions, and set the position to [0, 0, 1, 1] with zero
margins. -/
def CubeVizLayout.hide_viewer_axes (st : CubeVizLayout) : CubeVizLayout :=
  let saved := st.cube_views.map (fun view => (view.axes_position, view.axes_margins))
  let views := st.cube_views.map (fun view =>
    set_pos_and_margin (view.toggle_hidden_axes true) [0, 0, 1, 1] [0, 0, 0, 0])
  { st with viewer_axes_positions := st.viewer_axes_positions ++ saved
            cube_views := views }

/-- CubeVizLayout._toggle_viewer_axes: when _viewer_axes_positions is
non-empty, restore each zipped viewer's saved position and margins (the
Python zip pairs viewers with saved entries by position and stops at the
shorter list, leaving any remaining viewers untouched) and empty the list;
otherwise record the current positions and hide the axes. -/
def CubeVizLayout.toggle_viewer_axes (st : CubeVizLayout) : CubeVizLayout :=
  if st.viewer_axes_positions.isEmpty then st.hide_viewer_axes
  else
    let restored := (st.cube_views.zip st.viewer_axes_positions).map
      (fun vp => set_pos_and_margin (vp.1.toggle_hidden_axes false) vp.2.1 vp.2.2)
    { st with cube_views := restored ++ st.cube_views.drop restored.length
              viewer_axes_positions := [] }

/-- CubeVizLayout.handle_subset_action: on a SubsetUpdateMessage, zip the
viewer combo helpers with the cube viewers and draw each zipped viewer's
stats axes for the paired helper's selection and the message's subset (the
zip stops at the shorter list, leaving unpaired viewers untouched); on a
SubsetDeleteMessage, hide the stats axes of every cube viewer; otherwise
do nothing. -/
def CubeVizLayout.handle_subset_action (st : CubeVizLayout) (message : Message) :
    CubeVizLayout :=
  match message with
  | Message.subsetUpdateMessage subset =>
    let drawn := (st.viewer_combo_helpers.zip st.cube_views).map
      (fun p => p.2.draw_stats_axes p.1.selection subset)
    { st with cube_views := drawn ++ st.cube_views.drop drawn.length }
  | Message.subsetDeleteMessage _ =>
    { st with cube_views := st.cube_views.map CubevizImageViewer.hide_stats_axes }
  | _ => st

/-- CubeVizLayout.get_viewer_combo: the combo box of the viewer at the
given index (single_viewer_combo for index 0, viewer{i}_combo otherwise);
the combos list stores them at those indices. -/
def CubeVizLayout.get_viewer_combo (st : CubeVizLayout) (view_index : Nat) :
    Option ComboBox :=
  st.combos.get? view_index

/-- The handler installed by CubeVizLayout._get_change_viewer_combo_func
for viewer view_index, run whenever that viewer's combo selection changes.
It reads the combo's current data; sets the viewer's has_2d_data from the
component's dimensionality; ends an active smoothing preview; (after
updating labels, reference data and layer attributes, which are not part
of the modelled state) enables or disables the slice controller when the
viewer is the active cube; and finally updates the viewer's displayed
component.  A combo change with no current data dereferences
component.parent in Python and raises; this returns none. -/
def CubeVizLayout.on_viewer_combo_change (st : CubeVizLayout) (view_index : Nat) :
    Option CubeVizLayout :=
  match st.combos.get? view_index, st.cube_views.get? view_index with
  | some combo, some viewer =>
    match combo.currentData with
    | none => none
    | some component =>
      let viewer := { viewer with has_2d_data := component.ndim == 2 }
      let viewer := if viewer.is_smoothing_preview_active then
          viewer.end_smoothing_preview
        else viewer
      let st1 := { st with cube_views := st.cube_views.set view_index viewer }
      let st2 := if st1.active_cube = some (ViewRef.cube view_index) then
          { st1 with slice_controller := st1.slice_controller.set_enabled (!viewer.has_2d_data) }
        else st1
      let viewer := viewer.update_component component
      some { st2 with cube_views := st2.cube_views.set view_index viewer }
  | _, _ => none

/-- Qt semantics of QComboBox.setCurrentIndex for the combo of viewer
view_index: setting a different index stores it and emits
currentIndexChanged, which runs the handler installed by
_get_change_viewer_combo_func; setting the same index emits nothing. -/
def CubeVizLayout.set_combo_current_index (st : CubeVizLayout) (view_index : Nat)
    (idx : Int) : Option CubeVizLayout :=
  match st.combos.get? view_index with
  | none => none
  | some combo =>
    if combo.currentIndex == idx then some st
    else
      let combo := { combo with currentIndex := idx }
      let st := { st with
        combos := st.combos.set view_index combo }
      st.on_viewer_combo_change view_index

/-- CubeVizLayout.change_viewer_component: find the index of the component
in the viewer's combo; when it is already current and force is set, emit
currentIndexChanged directly (running the handler), otherwise set the
combo's current index (which runs the handler only when the index actually
changes). -/
def CubeVizLayout.change_viewer_component (st : CubeVizLayout) (view_index : Nat)
    (component_id : Option Component) (force : Bool := false) :
    Option CubeVizLayout :=
  match st.get_viewer_combo view_index with
  | none => none
  | some combo =>
    let component_index := combo.findData component_id
    if combo.currentIndex == component_index && force then
      st.on_viewer_combo_change view_index
    else
      st.set_combo_current_index view_index component_index

/-- CubeVizLayout.refresh_viewer_combo_helpers calls helper.refresh() on
each ComponentIDComboHelper; the helpers are external glue objects that
repopulate the combo entries from the data collection, and the modelled
combo contents already mirror the data, so the modelled state is
unchanged. -/
def CubeVizLayout.refresh_viewer_combo_helpers (st : CubeVizLayout) :
    CubeVizLayout :=
  st

/-- CubeVizLayout.display_component: refresh the combo helpers, then change
the component of viewer 0 when in single viewer mode and of viewer 1
otherwise. -/
def CubeVizLayout.display_component (st : CubeVizLayout)
    (component_id : Option Component) : Option CubeVizLayout :=
  let st := st.refresh_viewer_combo_helpers
  if st.single_viewer_mode then st.change_viewer_component 0 component_id
  else st.change_viewer_component 1 component_id

/-- One iteration of the loop in CubeVizLayout.start_smoothing_preview for
a view index: record the combo's current data in _original_components,
change the viewer's component to the previewed one with force, and set up
the smoothing preview on the viewer. -/
def CubeVizLayout.smoothing_preview_step (st : CubeVizLayout) (view_index : Nat)
    (component_id : Option Component) : Option CubeVizLayout :=
  match st.get_viewer_combo view_index with
  | none => none
  | some combo =>
    let st := { st with original_components :=
      st.original_components ++ [(view_index, combo.currentData)] }
    match st.change_viewer_component view_index component_id true with
    | none => none
    | some st =>
      match st.cube_views.get? view_index with
      | none => none
      | some view =>
        some { st with cube_views :=
          st.cube_views.set view_index view.set_smoothing_preview }

/-- CubeVizLayout.start_smoothing_preview: reset _original_components to an
empty map, then run the loop body for view indices 0 and 1 (the single
viewer and the first split viewer). -/
def CubeVizLayout.start_smoothing_preview (st : CubeVizLayout)
    (component_id : Option Component) : Option CubeVizLayout :=
  let st := { st with original_components := [] }
  match st.smoothing_preview_step 0 component_id with
  | none => none
  | some st => st.smoothing_preview_step 1 component_id

/-- Python membership and lookup for the _original_components dict: some
value when view_index is a key, none otherwise. -/
def lookupOriginal (l : List (Nat × Option Component)) (view_index : Nat) :
    Option (Option Component) :=
  match l.find? (fun p => p.1 == view_index) with
  | some p => some p.2
  | none => none

/-- One iteration of the loop in CubeVizLayout.end_smoothing_preview for a
view index: end the viewer's smoothing preview, and when the view index is
a key of _original_components, change the viewer's component back to the
recorded one with force. -/
def CubeVizLayout.end_preview_step (st : CubeVizLayout) (view_index : Nat) :
    Option CubeVizLayout :=
  match st.cube_views.get? view_index with
  | none => none
  | some view =>
    let st := { st with
      cube_views := st.cube_views.set view_index view.end_smoothing_preview }
    match lookupOriginal st.original_components view_index with
    | some component_id => st.change_viewer_component view_index component_id true
    | none => some st

/-- CubeVizLayout.end_smoothing_preview: run the loop body for view indices
0 and 1, then reset _original_components to an empty map. -/
def CubeVizLayout.end_smoothing_preview (st : CubeVizLayout) :
    Option CubeVizLayout :=
  match st.end_preview_step 0 with
  | none => none
  | some st =>
    match st.end_preview_step 1 with
    | none => none
    | some st => some { st with original_components := [] }

/-- A toolkit menu action as built in _init_menu_buttons: its text, whether
it is checkable, whether it is checked, and whether it was added to the
exclusive RA-DEC format action group. -/
structure QAction where
  text : String
  checkable : Bool
  checked : Bool
  in_exclusive_group : Bool
deriving DecidableEq

/-- The RA-DEC format names iterated over in _init_menu_buttons. -/
def ra_dec_format_names : List String := ["Sexagesimal", "Decimal Degrees"]

/-- Python semantics of the checked-state condition in _init_menu_buttons:
the source writes `format == "Sexagesimal"`, comparing the Python builtin
function `format` (not the loop variable format_name) with the string; a
function object never equals a string, so the condition is false on every
iteration. -/
def builtin_format_equals_sexagesimal : Bool := false

/-- The RA-DEC format actions created by the loop in _init_menu_buttons:
for each format name, a checkable action in the exclusive action group
whose checked state is set by
`act.setChecked(True) if format == "Sexagesimal" else act.setChecked(False)`. -/
def init_format_actions : List QAction :=
  ra_dec_format_names.map (fun format_name =>
    { text := format_name
      checkable := true
      checked := builtin_format_equals_sexagesimal
      in_exclusive_group := true })

/-- A flux-like 3-d component used in concrete states. -/
def fluxComponent : Component := { id := 0, ndim := 3 }

/-- An error-like 3-d component used in concrete states. -/
def errComponent : Component := { id := 1, ndim := 3 }

/-- A data-quality-like 3-d component used in concrete states. -/
def dqComponent : Component := { id := 2, ndim := 3 }

/-- The component list of the concrete combos (FLUX, Error, DQ). -/
def sampleComponents : List Component := [fluxComponent, errComponent, dqComponent]

/-- A concrete viewer combo with the sample items and the given current
index. -/
def sampleCombo (k : Int) : ComboBox :=
  { items := sampleComponents, currentIndex := k }

/-- A concrete cube viewer with slice index n + 5 and axes bookkeeping
depending on n, as left by typical interaction after data is loaded. -/
def sampleViewer (n : Nat) : CubevizImageViewer :=
  { synced := false
    slice_index := n + 5
    has_2d_data := false
    is_smoothing_preview_active := false
    displayed_component := some fluxComponent
    hidden_axes := false
    axes_position := [Int.ofNat n, 0, 10, 10]
    axes_margins := [1, 1, 1, 1]
    stats_axes := StatsAxes.hidden
    toolbar_visible := true
    stats_visible := true }

/-- A concrete layout state of the shape reached after add_data: four cube
viewers, four populated combos, four combo helpers, data loaded, split
image mode, the first split viewer (cube_views[1]) active. -/
def sampleLayout : CubeVizLayout :=
  { cube_views := [sampleViewer 0, sampleViewer 1, sampleViewer 2, sampleViewer 3]
    combos := [sampleCombo 0, sampleCombo 0, sampleCombo 1, sampleCombo 2]
    hub_registrations := initHubRegistrations
    has_data := true
    single_viewer_mode := false
    button_toggle_image_mode_text := "Single Image Viewer"
    viewer_control_frame_index := 0
    active_view := some (ViewRef.cube 1)
    active_cube := some (ViewRef.cube 1)
    last_active_view := some (ViewRef.cube 0)
    active_split_cube := some (ViewRef.cube 1)
    viewer_combo_helpers :=
      [⟨some fluxComponent⟩, ⟨some fluxComponent⟩, ⟨some errComponent⟩, ⟨some dqComponent⟩]
    viewer_axes_positions := []
    toolbars_visible := true
    stats_visible := true
    sync := []
    synced_index := some 6
    slice_controller := { enabled := true, index := 6 }
    original_components := [] }

/-- C6: the layout constructs exactly four cube viewers (one single viewer
plus DEFAULT_NUM_SPLIT_VIEWERS = 3 split viewers) and exactly one spectral
viewer, each registered to the session hub in construction order, and
subWindowList returns exactly these five windows with the four cube
viewers first and the spectral viewer last. -/
theorem C6_construction_views_and_subWindowList :
    CubeVizLayout.init.cube_views.length = DEFAULT_NUM_SPLIT_VIEWERS + 1 ∧
    CubeVizLayout.init.cube_views.length = 4 ∧
    CubeVizLayout.init.hub_registrations =
      [ViewRef.cube 0, ViewRef.cube 1, ViewRef.cube 2, ViewRef.cube 3,
        ViewRef.specviz] ∧
    CubeVizLayout.init.subWindowList =
      [ViewRef.cube 0, ViewRef.cube 1, ViewRef.cube 2, ViewRef.cube 3,
        ViewRef.specviz] := by
  refine ⟨rfl, rfl, rfl, rfl⟩

/-- C8: neither RA-DEC format action is initially checked; the loop in
_init_menu_buttons compares the Python builtin `format` (not the loop
variable format_name) against "Sexagesimal", which is always false, so
setChecked(False) is applied to both actions of the exclusive action
group. -/
theorem C8_format_actions_unchecked :
    init_format_actions.map QAction.text = ["Sexagesimal", "Decimal Degrees"] ∧
    init_format_actions.length = 2 ∧
    ∀ act ∈ init_format_actions,
      act.checked = false ∧ act.checkable = true ∧ act.in_exclusive_group = true := by
  refine ⟨rfl, rfl, ?_⟩
  intro act hact
  fin_cases hact <;> exact ⟨rfl, rfl, rfl⟩

/-- C9: before add_data has been called the _has_data flag is False and
_update_active_view is a no-op: for every view argument the state is
returned unchanged, so _active_view, _active_cube and the slice
controller's enabled state and index are untouched; after construction
both _active_view and _active_cube are None and _has_data is False. -/
theorem C9_update_active_view_noop_before_data (st : CubeVizLayout)
    (view : Option ViewRef) (h : st.has_data = false) :
    st.update_active_view view = some st ∧
    CubeVizLayout.init.has_data = false ∧
    CubeVizLayout.init.active_view = none ∧
    CubeVizLayout.init.active_cube = none := by
  refine ⟨?_, rfl, rfl, rfl⟩
  unfold CubeVizLayout.update_active_view
  rw [h]
  simp

/-- Witness for C9 at the freshly constructed state and the specviz view. -/
theorem C9_witness :
    CubeVizLayout.init.has_data = false ∧
    (CubeVizLayout.init.update_active_view (some ViewRef.specviz) =
        some CubeVizLayout.init ∧
      CubeVizLayout.init.has_data = false ∧
      CubeVizLayout.init.active_view = none ∧
      CubeVizLayout.init.active_cube = none) :=
  ⟨rfl, C9_update_active_view_noop_before_data CubeVizLayout.init
    (some ViewRef.specviz) rfl⟩

/-- The state produced by clicking the sync button on the sample layout. -/
def sampleSynced : CubeVizLayout :=
  sampleLayout.on_sync_click.getD sampleLayout

/-- C1: after any call to _on_sync_click, every cube viewer (the single
viewer and the three split viewers) has its synced flag set to True, every
cube viewer other than the active cube has had its slice index updated to
the active cube viewer's slice index, and the slice controller's index is
updated to that same value. -/
theorem C1_on_sync_click_syncs_all (st st' : CubeVizLayout)
    (v0 v1 v2 v3 vi : CubevizImageViewer) (i : Nat)
    (hviews : st.cube_views = [v0, v1, v2, v3])
    (hact : st.active_cube = some (ViewRef.cube i))
    (hvi : st.cube_views.get? i = some vi)
    (h : st.on_sync_click = some st') :
    (∀ v ∈ st'.cube_views, v.synced = true) ∧
    (∀ j w, st'.cube_views.get? j = some w → j ≠ i →
      w.slice_index = vi.slice_index) ∧
    st'.slice_controller.index = vi.slice_index := by
  have hi : i < 4 := by
    by_contra hge
    push_neg at hge
    have hnone : st.cube_views.get? i = none := by
      apply List.get?_eq_none.mpr
      rw [hviews]
      simpa using hge
    rw [hnone] at hvi
    exact Option.noConfusion hvi
  unfold CubeVizLayout.on_sync_click at h
  rw [hact] at h
  simp only at h
  rw [hvi, hviews] at h
  simp only [Option.some.injEq] at h
  subst h
  interval_cases i <;>
    simp_all [mapWithIndex, CubevizImageViewer.update_slice_index,
      SliceController.update_index, hviews] <;>
    (intro j w hw hne; match j, hw, hne with
      | 0, hw, hne => first
        | exact absurd rfl hne
        | (injection hw with hw; subst hw; rfl)
      | 1, hw, hne => first
        | exact absurd rfl hne
        | (injection hw with hw; subst hw; rfl)
      | 2, hw, hne => first
        | exact absurd rfl hne
        | (injection hw with hw; subst hw; rfl)
      | 3, hw, hne => first
        | exact absurd rfl hne
        | (injection hw with hw; subst hw; rfl)
      | (n + 4), hw, hne => exact Option.noConfusion hw)

/-- Witness for C1 at the sample layout, whose active cube is the first
split viewer with slice index 6. -/
theorem C1_witness :
    sampleLayout.cube_views =
      [sampleViewer 0, sampleViewer 1, sampleViewer 2, sampleViewer 3] ∧
    sampleLayout.active_cube = some (ViewRef.cube 1) ∧
    sampleLayout.cube_views.get? 1 = some (sampleViewer 1) ∧
    sampleLayout.on_sync_click = some sampleSynced ∧
    ((∀ v ∈ sampleSynced.cube_views, v.synced = true) ∧
      (∀ j w, sampleSynced.cube_views.get? j = some w → j ≠ 1 →
        w.slice_index = (sampleViewer 1).slice_index) ∧
      sampleSynced.slice_controller.index = (sampleViewer 1).slice_index) :=
  ⟨rfl, rfl, rfl, rfl,
    C1_on_sync_click_syncs_all sampleLayout sampleSynced (sampleViewer 0)
      (sampleViewer 1) (sampleViewer 2) (sampleViewer 3) (sampleViewer 1) 1
      rfl rfl rfl rfl⟩

/-- C4: starting from the state in which axes are shown
(_viewer_axes_positions empty), one call to _toggle_viewer_axes saves
exactly one position-and-margins pair per cube viewer (four entries, in
viewer order) and sets each viewer's axes to position [0, 0, 1, 1] with
zero margins; a second call restores every cube viewer's axes position and
margins to their saved values and leaves _viewer_axes_positions empty
again. -/
theorem C4_toggle_viewer_axes_round_trip (st : CubeVizLayout)
    (v0 v1 v2 v3 : CubevizImageViewer)
    (hviews : st.cube_views = [v0, v1, v2, v3])
    (hpos : st.viewer_axes_positions = []) :
    st.toggle_viewer_axes.viewer_axes_positions =
      [(v0.axes_position, v0.axes_margins), (v1.axes_position, v1.axes_margins),
        (v2.axes_position, v2.axes_margins), (v3.axes_position, v3.axes_margins)] ∧
    (∀ v ∈ st.toggle_viewer_axes.cube_views,
      v.axes_position = [0, 0, 1, 1] ∧ v.axes_margins = [0, 0, 0, 0]) ∧
    st.toggle_viewer_axes.toggle_viewer_axes.cube_views.map
        (fun v => (v.axes_position, v.axes_margins)) =
      [(v0.axes_position, v0.axes_margins), (v1.axes_position, v1.axes_margins),
        (v2.axes_position, v2.axes_margins), (v3.axes_position, v3.axes_margins)] ∧
    st.toggle_viewer_axes.toggle_viewer_axes.viewer_axes_positions = [] := by
  unfold CubeVizLayout.toggle_viewer_axes CubeVizLayout.hide_viewer_axes
  rw [hviews, hpos]
  simp [set_pos_and_margin, CubevizImageViewer.toggle_hidden_axes]

/-- Witness for C4 at the sample layout, whose axes are shown. -/
theorem C4_witness :
    sampleLayout.cube_views =
      [sampleViewer 0, sampleViewer 1, sampleViewer 2, sampleViewer 3] ∧
    sampleLayout.viewer_axes_positions = [] ∧
    (sampleLayout.toggle_viewer_axes.viewer_axes_positions =
      [((sampleViewer 0).axes_position, (sampleViewer 0).axes_margins),
        ((sampleViewer 1).axes_position, (sampleViewer 1).axes_margins),
        ((sampleViewer 2).axes_position, (sampleViewer 2).axes_margins),
        ((sampleViewer 3).axes_position, (sampleViewer 3).axes_margins)] ∧
    (∀ v ∈ sampleLayout.toggle_viewer_axes.cube_views,
      v.axes_position = [0, 0, 1, 1] ∧ v.axes_margins = [0, 0, 0, 0]) ∧
    sampleLayout.toggle_viewer_axes.toggle_viewer_axes.cube_views.map
        (fun v => (v.axes_position, v.axes_margins)) =
      [((sampleViewer 0).axes_position, (sampleViewer 0).axes_margins),
        ((sampleViewer 1).axes_position, (sampleViewer 1).axes_margins),
        ((sampleViewer 2).axes_position, (sampleViewer 2).axes_margins),
        ((sampleViewer 3).axes_position, (sampleViewer 3).axes_margins)] ∧
    sampleLayout.toggle_viewer_axes.toggle_viewer_axes.viewer_axes_positions = []) :=
  ⟨rfl, rfl,
    C4_toggle_viewer_axes_round_trip sampleLayout (sampleViewer 0)
      (sampleViewer 1) (sampleViewer 2) (sampleViewer 3) rfl rfl⟩

/-- C5: handle_subset_action dispatches hub messages by type: a
SubsetUpdateMessage draws stats axes on every cube viewer, pairing the
i-th viewer combo helper's selection with the message's subset; a
SubsetDeleteMessage hides the stats axes of every cube viewer; any other
message type performs no viewer update at all (the state is unchanged). -/
theorem C5_handle_subset_action_dispatch (st : CubeVizLayout)
    (v0 v1 v2 v3 : CubevizImageViewer) (h0 h1 h2 h3 : ComponentIDComboHelper)
    (subset : Nat)
    (hviews : st.cube_views = [v0, v1, v2, v3])
    (hhelpers : st.viewer_combo_helpers = [h0, h1, h2, h3]) :
    (st.handle_subset_action (Message.subsetUpdateMessage subset)).cube_views =
      [v0.draw_stats_axes h0.selection subset,
        v1.draw_stats_axes h1.selection subset,
        v2.draw_stats_axes h2.selection subset,
        v3.draw_stats_axes h3.selection subset] ∧
    (∀ v ∈ (st.handle_subset_action (Message.subsetDeleteMessage subset)).cube_views,
      v.stats_axes = StatsAxes.hidden) ∧
    st.handle_subset_action Message.settingsChangeMessage = st ∧
    st.handle_subset_action Message.otherMessage = st := by
  unfold CubeVizLayout.handle_subset_action
  rw [hviews, hhelpers]
  refine ⟨by simp, ?_, rfl, rfl⟩
  simp [CubevizImageViewer.hide_stats_axes]

/-- Witness for C5 at the sample layout with subset 7. -/
theorem C5_witness :
    sampleLayout.cube_views =
      [sampleViewer 0, sampleViewer 1, sampleViewer 2, sampleViewer 3] ∧
    sampleLayout.viewer_combo_helpers =
      [⟨some fluxComponent⟩, ⟨some fluxComponent⟩, ⟨some errComponent⟩,
        ⟨some dqComponent⟩] ∧
    ((sampleLayout.handle_subset_action (Message.subsetUpdateMessage 7)).cube_views =
      [(sampleViewer 0).draw_stats_axes (some fluxComponent) 7,
        (sampleViewer 1).draw_stats_axes (some fluxComponent) 7,
        (sampleViewer 2).draw_stats_axes (some errComponent) 7,
        (sampleViewer 3).draw_stats_axes (some dqComponent) 7] ∧
    (∀ v ∈ (sampleLayout.handle_subset_action (Message.subsetDeleteMessage 7)).cube_views,
      v.stats_axes = StatsAxes.hidden) ∧
    sampleLayout.handle_subset_action Message.settingsChangeMessage = sampleLayout ∧
    sampleLayout.handle_subset_action Message.otherMessage = sampleLayout) :=
  ⟨rfl, rfl,
    C5_handle_subset_action_dispatch sampleLayout (sampleViewer 0) (sampleViewer 1)
      (sampleViewer 2) (sampleViewer 3) ⟨some fluxComponent⟩ ⟨some fluxComponent⟩
      ⟨some errComponent⟩ ⟨some dqComponent⟩ 7 rfl rfl⟩

/-- Helper: the mode branch of _toggle_image_mode flips the
_single_viewer_mode flag and sets the toggle button's text according to
the mode being left. -/
theorem toggle_branch_mode_and_text (st st' : CubeVizLayout)
    (h : st.toggle_branch = some st') :
    st'.single_viewer_mode = !st.single_viewer_mode ∧
    st'.button_toggle_image_mode_text =
      (if st.single_viewer_mode then "Single Image Viewer"
        else "Split Image Viewer") := by
  unfold CubeVizLayout.toggle_branch at h
  split at h
  case isTrue hm =>
    dsimp only at h
    split at h
    · exact Option.noConfusion h
    · injection h with h
      subst h
      simp [hm]
  case isFalse hm =>
    injection h with h
    subst h
    simp only [Bool.not_eq_true] at hm
    simp [hm]

/-- Helper: _update_active_view never changes the _single_viewer_mode flag
or the toggle button's text. -/
theorem update_active_view_mode_and_text (st st' : CubeVizLayout)
    (v : Option ViewRef) (h : st.update_active_view v = some st') :
    st'.single_viewer_mode = st.single_viewer_mode ∧
    st'.button_toggle_image_mode_text = st.button_toggle_image_mode_text := by
  unfold CubeVizLayout.update_active_view at h
  dsimp only at h
  repeat' split at h
  all_goals first
    | exact Option.noConfusion h
    | (injection h with h; subst h; exact ⟨rfl, rfl⟩)

/-- Helper: the final slice controller update of _toggle_image_mode never
changes the _single_viewer_mode flag or the toggle button's text. -/
theorem toggle_finish_mode_and_text (st st' : CubeVizLayout)
    (h : st.toggle_finish = some st') :
    st'.single_viewer_mode = st.single_viewer_mode ∧
    st'.button_toggle_image_mode_text = st.button_toggle_image_mode_text := by
  unfold CubeVizLayout.toggle_finish at h
  repeat' split at h
  all_goals first
    | exact Option.noConfusion h
    | (injection h with h; subst h; exact ⟨rfl, rfl⟩)

/-- Helper: whenever _toggle_image_mode completes, the _single_viewer_mode
flag is flipped and the toggle button's text is set according to the mode
being left (the signal emission and slice controller update touch
neither). -/
theorem toggle_image_mode_mode_and_text (st st' : CubeVizLayout)
    (h : st.toggle_image_mode = some st') :
    st'.single_viewer_mode = !st.single_viewer_mode ∧
    st'.button_toggle_image_mode_text =
      (if st.single_viewer_mode then "Single Image Viewer"
        else "Split Image Viewer") := by
  unfold CubeVizLayout.toggle_image_mode at h
  dsimp only at h
  cases hb : CubeVizLayout.toggle_branch { st with last_active_view := st.active_view } with
  | none =>
    rw [hb] at h
    exact Option.noConfusion h
  | some stb =>
    rw [hb] at h
    dsimp only at h
    cases hu : stb.update_active_view st.last_active_view with
    | none =>
      rw [hu] at h
      exact Option.noConfusion h
    | some stu =>
      rw [hu] at h
      dsimp only at h
      have hb2 := toggle_branch_mode_and_text _ _ hb
      have hu2 := update_active_view_mode_and_text _ _ _ hu
      have hf2 := toggle_finish_mode_and_text _ _ h
      refine ⟨?_, ?_⟩
      · rw [hf2.1, hu2.1, hb2.1]
      · rw [hf2.2, hu2.2, hb2.2]

/-- C3: every call to _toggle_image_mode flips the boolean
_single_viewer_mode, and after the call the toggle button's text is
'Single Image Viewer' exactly when the layout is in split-image mode and
'Split Image Viewer' exactly when it is in single-image mode; two calls in
succession restore _single_viewer_mode to its original value. -/
theorem C3_toggle_image_mode_flip (st st1 st2 : CubeVizLayout)
    (h1 : st.toggle_image_mode = some st1)
    (h2 : st1.toggle_image_mode = some st2) :
    st1.single_viewer_mode = !st.single_viewer_mode ∧
    (st1.button_toggle_image_mode_text = "Single Image Viewer" ↔
      st1.single_viewer_mode = false) ∧
    (st1.button_toggle_image_mode_text = "Split Image Viewer" ↔
      st1.single_viewer_mode = true) ∧
    st2.single_viewer_mode = st.single_viewer_mode := by
  obtain ⟨hm1, ht1⟩ := toggle_image_mode_mode_and_text st st1 h1
  obtain ⟨hm2, _⟩ := toggle_image_mode_mode_and_text st1 st2 h2
  refine ⟨hm1, ?_, ?_, ?_⟩
  · rw [ht1, hm1]
    cases st.single_viewer_mode <;> decide
  · rw [ht1, hm1]
    cases st.single_viewer_mode <;> decide
  · rw [hm2, hm1, Bool.not_not]

/-- The sample layout after one image-mode toggle. -/
def sampleToggled1 : CubeVizLayout :=
  sampleLayout.toggle_image_mode.getD sampleLayout

/-- The sample layout after two image-mode toggles. -/
def sampleToggled2 : CubeVizLayout :=
  sampleToggled1.toggle_image_mode.getD sampleToggled1

/-- Witness for C3: two successive toggles on the sample layout. -/
theorem C3_witness :
    sampleLayout.toggle_image_mode = some sampleToggled1 ∧
    sampleToggled1.toggle_image_mode = some sampleToggled2 ∧
    (sampleToggled1.single_viewer_mode = !sampleLayout.single_viewer_mode ∧
    (sampleToggled1.button_toggle_image_mode_text = "Single Image Viewer" ↔
      sampleToggled1.single_viewer_mode = false) ∧
    (sampleToggled1.button_toggle_image_mode_text = "Split Image Viewer" ↔
      sampleToggled1.single_viewer_mode = true) ∧
    sampleToggled2.single_viewer_mode = sampleLayout.single_viewer_mode) :=
  ⟨rfl, rfl, C3_toggle_image_mode_flip sampleLayout sampleToggled1 sampleToggled2
    rfl rfl⟩

/-- Helper: _on_sync_click never changes the sync binding dictionary. -/
theorem on_sync_click_preserves_sync (st st' : CubeVizLayout)
    (h : st.on_sync_click = some st') : st'.sync = st.sync := by
  unfold CubeVizLayout.on_sync_click at h
  repeat' split at h
  all_goals first
    | exact Option.noConfusion h
    | (injection h with h; subst h; rfl)

/-- The sample layout after _setup_syncing. -/
def sampleSetup : CubeVizLayout :=
  sampleLayout.setup_syncing.getD sampleLayout

/-- Counterexample to C2: after _setup_syncing on the sample layout all
four cube viewers are synced and the bindings for every pan/zoom attribute
link only cube viewers 1-2 and 2-3; changing synced viewer 1's x_min value
to 5 propagates it to viewers 2 and 3 but leaves the synced single viewer
(viewer 0) at its old value 0, so not every other synced cube viewer's
value becomes equal to the changed one. -/
theorem C2_counterexample :
    sampleLayout.setup_syncing = some sampleSetup ∧
    (∀ v ∈ sampleSetup.cube_views, v.synced = true) ∧
    syncLinksFor sampleSetup "x_min" = [(1, 2), (2, 3)] ∧
    propagateChange (syncLinksFor sampleSetup "x_min") (fun _ => 0) 1 5 1 = 5 ∧
    propagateChange (syncLinksFor sampleSetup "x_min") (fun _ => 0) 1 5 2 = 5 ∧
    propagateChange (syncLinksFor sampleSetup "x_min") (fun _ => 0) 1 5 3 = 5 ∧
    ¬ propagateChange (syncLinksFor sampleSetup "x_min") (fun _ => 0) 1 5 0 = 5 := by
  decide

/-- C2 as amended: _setup_syncing establishes change-propagation bindings
on each pan/zoom attribute (x_min, x_max, y_min, y_max) linking the three
split viewers in a chain (cube viewers 1-2 and 2-3), so that whenever one
split viewer's value of such an attribute changes, every split viewer's
value becomes equal to it; the single viewer is not bound, and its value
is unchanged by the propagation. -/
theorem C2_amended_setup_syncing_split_only (st st' : CubeVizLayout)
    (h : st.setup_syncing = some st') (a : String) (ha : a ∈ pan_zoom_attributes)
    (vals : Nat → Int) (v : Int) (i : Nat) (hi : i = 1 ∨ i = 2 ∨ i = 3) :
    syncLinksFor st' a = [(1, 2), (2, 3)] ∧
    (∀ j, j = 1 ∨ j = 2 ∨ j = 3 →
      propagateChange (syncLinksFor st' a) vals i v j = v) ∧
    propagateChange (syncLinksFor st' a) vals i v 0 = vals 0 := by
  have hsync : st'.sync =
      pan_zoom_attributes.map (fun attr_name => (attr_name, [(1, 2), (2, 3)])) := by
    unfold CubeVizLayout.setup_syncing at h
    dsimp only at h
    rw [on_sync_click_preserves_sync _ _ h]
  have hlinks : syncLinksFor st' a = [(1, 2), (2, 3)] := by
    unfold syncLinksFor
    rw [hsync]
    fin_cases ha <;> rfl
  refine ⟨hlinks, ?_, ?_⟩
  · intro j hj
    rw [hlinks]
    rcases hi with rfl | rfl | rfl <;> rcases hj with rfl | rfl | rfl <;>
      simp +decide [propagateChange]
  · rw [hlinks]
    rcases hi with rfl | rfl | rfl <;> simp +decide [propagateChange]

/-- Witness for the amended C2 at the sample layout, attribute x_min, a
change of split viewer 2's value to 5 from the all-zero valuation. -/
theorem C2_amended_witness :
    sampleLayout.setup_syncing = some sampleSetup ∧
    "x_min" ∈ pan_zoom_attributes ∧
    (2 = 1 ∨ 2 = 2 ∨ 2 = 3) ∧
    (syncLinksFor sampleSetup "x_min" = [(1, 2), (2, 3)] ∧
    (∀ j, j = 1 ∨ j = 2 ∨ j = 3 →
      propagateChange (syncLinksFor sampleSetup "x_min") (fun _ => 0) 2 5 j = 5) ∧
    propagateChange (syncLinksFor sampleSetup "x_min") (fun _ => 0) 2 5 0 = (fun _ => (0 : Int)) 0) :=
  ⟨rfl, by decide, by decide,
    C2_amended_setup_syncing_split_only sampleLayout sampleSetup rfl "x_min"
      (by decide) (fun _ => 0) 5 2 (by decide)⟩

/-- Helper: setting a combo's current index to findData of a component
present among its items makes that component the combo's current data. -/
theorem currentData_after_findData (cb : ComboBox) (c : Component)
    (hmem : c ∈ cb.items) :
    ComboBox.currentData { cb with currentIndex := cb.findData (some c) } = some c := by
  unfold ComboBox.currentData ComboBox.findData
  dsimp only
  have hex : ∃ x ∈ cb.items, (fun x => decide (x = c)) x = true := ⟨c, hmem, by simp⟩
  rw [List.findIdx?_eq_some_of_exists hex]
  have hlt : cb.items.findIdx (fun x => decide (x = c)) < cb.items.length :=
    List.findIdx_lt_length_of_exists hex
  have hp := @List.findIdx_getElem _ (fun x => decide (x = c)) cb.items hlt
  simp only [decide_eq_true_eq] at hp
  rw [if_pos (Int.natCast_nonneg _)]
  simp [List.get?_eq_getElem?, List.getElem?_eq_getElem hlt, hp]

/-- C10: display_component always changes the component of viewer index 0
when the layout is in single-viewer mode and of viewer index 1 when it is
in split mode, regardless of which cube viewer is the active one; in
particular, when the active cube is the second or third split viewer
(cube viewer 2 or 3), the active viewer's displayed component, and its
combo, are left unchanged. -/
theorem C10_display_component_fixed_target (st st' : CubeVizLayout)
    (cb0 cb1 cb2 cb3 : ComboBox) (v0 v1 v2 v3 : CubevizImageViewer)
    (c : Component) (a : Nat) (mode : Bool)
    (hcombos : st.combos = [cb0, cb1, cb2, cb3])
    (hviews : st.cube_views = [v0, v1, v2, v3])
    (hmode : st.single_viewer_mode = mode)
    (hactive : st.active_cube = some (ViewRef.cube a))
    (ha : a = 2 ∨ a = 3)
    (hchange : (if mode then cb0 else cb1).currentIndex ≠
      (if mode then cb0 else cb1).findData (some c))
    (hmem : c ∈ (if mode then cb0 else cb1).items)
    (h : st.display_component (some c) = some st') :
    (∃ w, st'.cube_views.get? (if mode then 0 else 1) = some w ∧
      w.displayed_component = some c) ∧
    st'.cube_views.get? 2 = some v2 ∧
    st'.cube_views.get? 3 = some v3 ∧
    st'.combos.get? 2 = some cb2 ∧
    st'.combos.get? 3 = some cb3 ∧
    (if mode then (st'.cube_views.get? 1 = some v1 ∧ st'.combos.get? 1 = some cb1)
      else (st'.cube_views.get? 0 = some v0 ∧ st'.combos.get? 0 = some cb0)) := by
  have hbeq : ((if mode then cb0 else cb1).currentIndex ==
      (if mode then cb0 else cb1).findData (some c)) = false :=
    beq_eq_false_iff_ne.mpr hchange
  have hdata := currentData_after_findData (if mode then cb0 else cb1) c hmem
  unfold CubeVizLayout.display_component CubeVizLayout.refresh_viewer_combo_helpers
    CubeVizLayout.change_viewer_component CubeVizLayout.get_viewer_combo
    CubeVizLayout.set_combo_current_index CubeVizLayout.on_viewer_combo_change at h
  dsimp only at h
  rw [hmode] at h
  cases mode
  case false =>
    simp only [Bool.false_eq_true, if_false] at hbeq hdata ⊢
    rw [hcombos] at h
    simp only [Bool.false_eq_true, if_false, List.get?_cons_succ, List.get?_cons_zero,
      Bool.and_false, hbeq, hviews, List.set_cons_succ, List.set_cons_zero] at h
    rw [hdata] at h
    simp only [hviews] at h
    rcases ha with rfl | rfl <;>
      (simp only [hactive, Option.some.injEq, ViewRef.cube.injEq,
        List.set_cons_succ, List.set_cons_zero] at h
       simp only [show ((2 : Nat) = 1) = False by simp, show ((3 : Nat) = 1) = False by simp,
         if_false, reduceCtorEq, Option.some.injEq] at h
       subst h
       exact ⟨⟨_, rfl, rfl⟩, rfl, rfl, rfl, rfl, rfl, rfl⟩)
  case true =>
    simp only [if_true] at hbeq hdata ⊢
    rw [hcombos] at h
    simp only [if_true, List.get?_cons_zero, Bool.and_false, hbeq, hviews,
      List.set_cons_zero] at h
    rw [hdata] at h
    simp only [hviews] at h
    rcases ha with rfl | rfl <;>
      (simp only [hactive, Option.some.injEq, ViewRef.cube.injEq,
        List.set_cons_succ, List.set_cons_zero] at h
       simp only [show ((2 : Nat) = 0) = False by simp, show ((3 : Nat) = 0) = False by simp,
         if_false, reduceCtorEq, Option.some.injEq] at h
       subst h
       exact ⟨⟨_, rfl, rfl⟩, rfl, rfl, rfl, rfl, rfl, rfl⟩)

/-- The sample layout with the second split viewer (cube viewer 2) active. -/
def sampleLayout2 : CubeVizLayout :=
  { sampleLayout with active_view := some (ViewRef.cube 2)
                      active_cube := some (ViewRef.cube 2)
                      active_split_cube := some (ViewRef.cube 2) }

/-- The sample layout with active cube 2 after display_component of the
error component. -/
def sampleDisplayed : CubeVizLayout :=
  (sampleLayout2.display_component (some errComponent)).getD sampleLayout2

/-- Witness for C10: displaying the error component on the sample layout in
split mode while cube viewer 2 is active. -/
theorem C10_witness :
    sampleLayout2.combos = [sampleCombo 0, sampleCombo 0, sampleCombo 1, sampleCombo 2] ∧
    sampleLayout2.cube_views =
      [sampleViewer 0, sampleViewer 1, sampleViewer 2, sampleViewer 3] ∧
    sampleLayout2.single_viewer_mode = false ∧
    sampleLayout2.active_cube = some (ViewRef.cube 2) ∧
    ((2 : Nat) = 2 ∨ (2 : Nat) = 3) ∧
    (if (false : Bool) then sampleCombo 0 else sampleCombo 0).currentIndex ≠
      (if (false : Bool) then sampleCombo 0 else sampleCombo 0).findData (some errComponent) ∧
    errComponent ∈ (if (false : Bool) then sampleCombo 0 else sampleCombo 0).items ∧
    sampleLayout2.display_component (some errComponent) = some sampleDisplayed ∧
    ((∃ w, sampleDisplayed.cube_views.get? (if (false : Bool) then 0 else 1) = some w ∧
      w.displayed_component = some errComponent) ∧
    sampleDisplayed.cube_views.get? 2 = some (sampleViewer 2) ∧
    sampleDisplayed.cube_views.get? 3 = some (sampleViewer 3) ∧
    sampleDisplayed.combos.get? 2 = some (sampleCombo 1) ∧
    sampleDisplayed.combos.get? 3 = some (sampleCombo 2) ∧
    (if (false : Bool) then
      (sampleDisplayed.cube_views.get? 1 = some (sampleViewer 1) ∧
        sampleDisplayed.combos.get? 1 = some (sampleCombo 0))
     else
      (sampleDisplayed.cube_views.get? 0 = some (sampleViewer 0) ∧
        sampleDisplayed.combos.get? 0 = some (sampleCombo 0)))) :=
  ⟨rfl, rfl, rfl, rfl, Or.inl rfl, by decide, by decide, rfl,
    C10_display_component_fixed_target sampleLayout2 sampleDisplayed
      (sampleCombo 0) (sampleCombo 0) (sampleCombo 1) (sampleCombo 2)
      (sampleViewer 0) (sampleViewer 1) (sampleViewer 2) (sampleViewer 3)
      errComponent 2 false rfl rfl rfl rfl (Or.inl rfl) (by decide) (by decide) rfl⟩

/-- Helper: looking up a position that was set twice. -/
theorem get?_set_set (l : List α) (i : Nat) (a b x : α) (hx : l.get? i = some x) :
    ((l.set i a).set i b).get? i = some b := by
  rw [List.set_set, List.get?_set_eq, hx]
  rfl

/-- Helper: a combo's current data is one of its items. -/
theorem currentData_mem (cb : ComboBox) (x : Component)
    (h : cb.currentData = some x) : x ∈ cb.items := by
  unfold ComboBox.currentData at h
  split at h
  · exact List.get?_mem h
  · exact Option.noConfusion h

/-- Helper: change_viewer_component with force, for a component present in
the viewer's combo, sets that combo's current index to the component's
index, runs the combo-change handler (so the viewer displays the
component and any smoothing preview is ended), and leaves every other
combo and viewer, the _original_components map and the active cube
unchanged. -/
theorem change_viewer_component_force (st st' : CubeVizLayout) (i : Nat)
    (cb : ComboBox) (v : CubevizImageViewer) (d : Component)
    (hcb : st.combos.get? i = some cb)
    (hv : st.cube_views.get? i = some v)
    (hmem : d ∈ cb.items)
    (h : st.change_viewer_component i (some d) true = some st') :
    st'.combos.get? i = some { cb with currentIndex := cb.findData (some d) } ∧
    (∀ j, j ≠ i → st'.combos.get? j = st.combos.get? j) ∧
    (∃ w, st'.cube_views.get? i = some w ∧
      w.displayed_component = some d ∧ w.is_smoothing_preview_active = false) ∧
    (∀ j, j ≠ i → st'.cube_views.get? j = st.cube_views.get? j) ∧
    st'.original_components = st.original_components ∧
    st'.active_cube = st.active_cube := by
  unfold CubeVizLayout.change_viewer_component CubeVizLayout.get_viewer_combo
    CubeVizLayout.set_combo_current_index CubeVizLayout.on_viewer_combo_change at h
  rw [hcb] at h
  dsimp only at h
  simp only [Bool.and_true, beq_iff_eq] at h
  by_cases hq : cb.currentIndex = cb.findData (some d)
  · rw [if_pos hq, hv] at h
    dsimp only at h
    have hcd : cb.currentData = some d := by
      have h2 := currentData_after_findData cb d hmem
      rw [← hq] at h2
      exact h2
    rw [hcd] at h
    dsimp only at h
    by_cases hsm : v.is_smoothing_preview_active = true
    · rw [if_pos hsm] at h
      by_cases hac : st.active_cube = some (ViewRef.cube i)
      · rw [if_pos hac] at h
        injection h with h
        subst h
        exact ⟨by rw [← hq]; exact hcb, fun j hj => rfl,
          ⟨_, get?_set_set _ _ _ _ _ hv, rfl, rfl⟩,
          fun j hj => by rw [List.set_set]; exact List.get?_set_ne _ _ (Ne.symm hj),
          rfl, rfl⟩
      · rw [if_neg hac] at h
        injection h with h
        subst h
        exact ⟨by rw [← hq]; exact hcb, fun j hj => rfl,
          ⟨_, get?_set_set _ _ _ _ _ hv, rfl, rfl⟩,
          fun j hj => by rw [List.set_set]; exact List.get?_set_ne _ _ (Ne.symm hj),
          rfl, rfl⟩
    · rw [if_neg hsm] at h
      by_cases hac : st.active_cube = some (ViewRef.cube i)
      · rw [if_pos hac] at h
        injection h with h
        subst h
        exact ⟨by rw [← hq]; exact hcb, fun j hj => rfl,
          ⟨_, get?_set_set _ _ _ _ _ hv, rfl, by simpa using hsm⟩,
          fun j hj => by rw [List.set_set]; exact List.get?_set_ne _ _ (Ne.symm hj),
          rfl, rfl⟩
      · rw [if_neg hac] at h
        injection h with h
        subst h
        exact ⟨by rw [← hq]; exact hcb, fun j hj => rfl,
          ⟨_, get?_set_set _ _ _ _ _ hv, rfl, by simpa using hsm⟩,
          fun j hj => by rw [List.set_set]; exact List.get?_set_ne _ _ (Ne.symm hj),
          rfl, rfl⟩
  · rw [if_neg hq, if_neg hq] at h
    rw [List.get?_set_eq, hcb] at h
    simp only [Option.map_eq_map, Option.map_some'] at h
    rw [hv] at h
    dsimp only at h
    rw [currentData_after_findData cb d hmem] at h
    dsimp only at h
    by_cases hsm : v.is_smoothing_preview_active = true
    · rw [if_pos hsm] at h
      by_cases hac : st.active_cube = some (ViewRef.cube i)
      · rw [if_pos hac] at h
        injection h with h
        subst h
        refine ⟨by rw [List.get?_set_eq, hcb]; rfl,
          fun j hj => List.get?_set_ne _ _ (Ne.symm hj),
          ⟨_, get?_set_set _ _ _ _ _ hv, rfl, rfl⟩,
          fun j hj => by rw [List.set_set]; exact List.get?_set_ne _ _ (Ne.symm hj),
          rfl, rfl⟩
      · rw [if_neg hac] at h
        injection h with h
        subst h
        refine ⟨by rw [List.get?_set_eq, hcb]; rfl,
          fun j hj => List.get?_set_ne _ _ (Ne.symm hj),
          ⟨_, get?_set_set _ _ _ _ _ hv, rfl, rfl⟩,
          fun j hj => by rw [List.set_set]; exact List.get?_set_ne _ _ (Ne.symm hj),
          rfl, rfl⟩
    · rw [if_neg hsm] at h
      by_cases hac : st.active_cube = some (ViewRef.cube i)
      · rw [if_pos hac] at h
        injection h with h
        subst h
        refine ⟨by rw [List.get?_set_eq, hcb]; rfl,
          fun j hj => List.get?_set_ne _ _ (Ne.symm hj),
          ⟨_, get?_set_set _ _ _ _ _ hv, rfl, by simpa using hsm⟩,
          fun j hj => by rw [List.set_set]; exact List.get?_set_ne _ _ (Ne.symm hj),
          rfl, rfl⟩
      · rw [if_neg hac] at h
        injection h with h
        subst h
        refine ⟨by rw [List.get?_set_eq, hcb]; rfl,
          fun j hj => List.get?_set_ne _ _ (Ne.symm hj),
          ⟨_, get?_set_set _ _ _ _ _ hv, rfl, by simpa using hsm⟩,
          fun j hj => by rw [List.set_set]; exact List.get?_set_ne _ _ (Ne.symm hj),
          rfl, rfl⟩

/-- Helper: one start_smoothing_preview loop iteration records the combo's
current data in _original_components, moves the combo to the previewed
component, displays it and activates the preview on the viewer, and leaves
every other combo and viewer and the active cube unchanged. -/
theorem smoothing_preview_step_spec (st st' : CubeVizLayout) (i : Nat)
    (cb : ComboBox) (v : CubevizImageViewer) (d : Component)
    (hcb : st.combos.get? i = some cb)
    (hv : st.cube_views.get? i = some v)
    (hmem : d ∈ cb.items)
    (h : st.smoothing_preview_step i (some d) = some st') :
    st'.combos.get? i = some { cb with currentIndex := cb.findData (some d) } ∧
    (∀ j, j ≠ i → st'.combos.get? j = st.combos.get? j) ∧
    (∃ w, st'.cube_views.get? i = some w ∧
      w.displayed_component = some d ∧ w.is_smoothing_preview_active = true) ∧
    (∀ j, j ≠ i → st'.cube_views.get? j = st.cube_views.get? j) ∧
    st'.original_components = st.original_components ++ [(i, cb.currentData)] ∧
    st'.active_cube = st.active_cube := by
  unfold CubeVizLayout.smoothing_preview_step CubeVizLayout.get_viewer_combo at h
  rw [hcb] at h
  dsimp only at h
  cases hc : CubeVizLayout.change_viewer_component
      { st with original_components := st.original_components ++ [(i, cb.currentData)] }
      i (some d) true with
  | none =>
    rw [hc] at h
    exact Option.noConfusion h
  | some stm =>
    rw [hc] at h
    dsimp only at h
    obtain ⟨hc1, hc2, ⟨w, hw, hwd, hwf⟩, hc4, hc5, hc6⟩ :=
      change_viewer_component_force
        { st with original_components := st.original_components ++ [(i, cb.currentData)] }
        stm i cb v d hcb hv hmem hc
    rw [hw] at h
    dsimp only at h
    injection h with h
    subst h
    refine ⟨hc1, fun j hj => hc2 j hj,
      ⟨w.set_smoothing_preview, by rw [List.get?_set_eq, hw]; rfl, hwd, rfl⟩,
      fun j hj => ?_, hc5, hc6⟩
    rw [List.get?_set_ne _ _ (Ne.symm hj)]
    exact hc4 j hj

/-- Helper: one end_smoothing_preview loop iteration ends the viewer's
preview and, when the viewer has a recorded original component present in
its combo, moves the combo back to it and displays it, leaving every other
combo and viewer, the _original_components map and the active cube
unchanged. -/
theorem end_preview_step_spec (st st' : CubeVizLayout) (i : Nat)
    (cb : ComboBox) (v : CubevizImageViewer) (d : Component)
    (hcb : st.combos.get? i = some cb)
    (hv : st.cube_views.get? i = some v)
    (horig : lookupOriginal st.original_components i = some (some d))
    (hmem : d ∈ cb.items)
    (h : st.end_preview_step i = some st') :
    st'.combos.get? i = some { cb with currentIndex := cb.findData (some d) } ∧
    (∀ j, j ≠ i → st'.combos.get? j = st.combos.get? j) ∧
    (∃ w, st'.cube_views.get? i = some w ∧
      w.displayed_component = some d ∧ w.is_smoothing_preview_active = false) ∧
    (∀ j, j ≠ i → st'.cube_views.get? j = st.cube_views.get? j) ∧
    st'.original_components = st.original_components ∧
    st'.active_cube = st.active_cube := by
  unfold CubeVizLayout.end_preview_step at h
  rw [hv] at h
  dsimp only at h
  rw [horig] at h
  dsimp only at h
  have hv1 : (st.cube_views.set i v.end_smoothing_preview).get? i =
      some v.end_smoothing_preview := by
    rw [List.get?_set_eq, hv]
    rfl
  obtain ⟨hc1, hc2, hw3, hc4, hc5, hc6⟩ :=
    change_viewer_component_force
      { st with cube_views := st.cube_views.set i v.end_smoothing_preview }
      st' i cb v.end_smoothing_preview d hcb hv1 hmem h
  refine ⟨hc1, fun j hj => hc2 j hj, hw3, fun j hj => ?_, hc5, hc6⟩
  exact (hc4 j hj).trans (List.get?_set_ne _ _ (Ne.symm hj))

/-- C7: for viewers 0 and 1 (the single viewer and the first split viewer),
calling end_smoothing_preview after start_smoothing_preview restores each
of those two viewers' combo selection to the component it displayed before
the preview started (the combo's current data, which the handler also puts
back on the viewer), and resets _original_components to empty. -/
theorem C7_smoothing_preview_round_trip (st st1 st2 : CubeVizLayout)
    (cb0 cb1 : ComboBox) (v0 v1 : CubevizImageViewer) (c c0 c1 : Component)
    (hcb0 : st.combos.get? 0 = some cb0)
    (hcb1 : st.combos.get? 1 = some cb1)
    (hv0 : st.cube_views.get? 0 = some v0)
    (hv1 : st.cube_views.get? 1 = some v1)
    (hd0 : cb0.currentData = some c0)
    (hd1 : cb1.currentData = some c1)
    (hm0 : c ∈ cb0.items)
    (hm1 : c ∈ cb1.items)
    (hstart : st.start_smoothing_preview (some c) = some st1)
    (hend : st1.end_smoothing_preview = some st2) :
    (∃ d0cb, st2.combos.get? 0 = some d0cb ∧ d0cb.currentData = some c0) ∧
    (∃ d1cb, st2.combos.get? 1 = some d1cb ∧ d1cb.currentData = some c1) ∧
    (∃ w0, st2.cube_views.get? 0 = some w0 ∧ w0.displayed_component = some c0 ∧
      w0.is_smoothing_preview_active = false) ∧
    (∃ w1, st2.cube_views.get? 1 = some w1 ∧ w1.displayed_component = some c1 ∧
      w1.is_smoothing_preview_active = false) ∧
    st2.original_components = [] := by
  unfold CubeVizLayout.start_smoothing_preview at hstart
  dsimp only at hstart
  cases hs0 : CubeVizLayout.smoothing_preview_step
      { st with original_components := [] } 0 (some c) with
  | none =>
    rw [hs0] at hstart
    exact Option.noConfusion hstart
  | some sA =>
    rw [hs0] at hstart
    dsimp only at hstart
    obtain ⟨hA1, hA2, ⟨wA, hAw, hAwd, hAwf⟩, hA4, hA5, hA6⟩ :=
      smoothing_preview_step_spec { st with original_components := [] } sA 0
        cb0 v0 c hcb0 hv0 hm0 hs0
    have hAcb1 : sA.combos.get? 1 = some cb1 := (hA2 1 (by decide)).trans hcb1
    have hAv1 : sA.cube_views.get? 1 = some v1 := (hA4 1 (by decide)).trans hv1
    obtain ⟨hB1, hB2, ⟨wB, hBw, hBwd, hBwf⟩, hB4, hB5, hB6⟩ :=
      smoothing_preview_step_spec sA st1 1 cb1 v1 c hAcb1 hAv1 hm1 hstart
    have horig : st1.original_components = [(0, some c0), (1, some c1)] := by
      rw [hB5, hA5]
      simp [hd0, hd1]
    have hst1cb0 : st1.combos.get? 0 =
        some { cb0 with currentIndex := cb0.findData (some c) } :=
      (hB2 0 (by decide)).trans hA1
    have hst1v0 : st1.cube_views.get? 0 = some wA := (hB4 0 (by decide)).trans hAw
    unfold CubeVizLayout.end_smoothing_preview at hend
    cases he0 : st1.end_preview_step 0 with
    | none =>
      rw [he0] at hend
      exact Option.noConfusion hend
    | some sB =>
      rw [he0] at hend
      dsimp only at hend
      cases he1 : sB.end_preview_step 1 with
      | none =>
        rw [he1] at hend
        exact Option.noConfusion hend
      | some sC =>
        rw [he1] at hend
        dsimp only at hend
        injection hend with hend
        subst hend
        have horig0 : lookupOriginal st1.original_components 0 = some (some c0) := by
          rw [horig]
          rfl
        obtain ⟨hE1, hE2, ⟨wE0, hE0w, hE0d, hE0f⟩, hE4, hE5, hE6⟩ :=
          end_preview_step_spec st1 sB 0
            { cb0 with currentIndex := cb0.findData (some c) } wA c0
            hst1cb0 hst1v0 horig0 (currentData_mem cb0 c0 hd0) he0
        have hsBcb1 : sB.combos.get? 1 =
            some { cb1 with currentIndex := cb1.findData (some c) } :=
          (hE2 1 (by decide)).trans hB1
        have hsBv1 : sB.cube_views.get? 1 = some wB := (hE4 1 (by decide)).trans hBw
        have horig1 : lookupOriginal sB.original_components 1 = some (some c1) := by
          rw [hE5, horig]
          rfl
        obtain ⟨hF1, hF2, ⟨wF1, hF1w, hF1d, hF1f⟩, hF4, hF5, hF6⟩ :=
          end_preview_step_spec sB sC 1
            { cb1 with currentIndex := cb1.findData (some c) } wB c1
            hsBcb1 hsBv1 horig1 (currentData_mem cb1 c1 hd1) he1
        refine ⟨?_, ?_, ?_, ?_, rfl⟩
        · refine ⟨_, (hF2 0 (by decide)).trans hE1, ?_⟩
          exact currentData_after_findData
            { cb0 with currentIndex := cb0.findData (some c) } c0
            (currentData_mem cb0 c0 hd0)
        · refine ⟨_, hF1, ?_⟩
          exact currentData_after_findData
            { cb1 with currentIndex := cb1.findData (some c) } c1
            (currentData_mem cb1 c1 hd1)
        · exact ⟨wE0, (hF4 0 (by decide)).trans hE0w, hE0d, hE0f⟩
        · exact ⟨wF1, hF1w, hF1d, hF1f⟩

/-- The sample layout after starting a smoothing preview of the DQ
component. -/
def samplePreviewStarted : CubeVizLayout :=
  (sampleLayout.start_smoothing_preview (some dqComponent)).getD sampleLayout

/-- The sample layout after the smoothing preview has ended. -/
def samplePreviewEnded : CubeVizLayout :=
  samplePreviewStarted.end_smoothing_preview.getD samplePreviewStarted

/-- Witness for C7: previewing the DQ component on the sample layout, whose
viewers 0 and 1 both display the flux component. -/
theorem C7_witness :
    sampleLayout.combos.get? 0 = some (sampleCombo 0) ∧
    sampleLayout.combos.get? 1 = some (sampleCombo 0) ∧
    sampleLayout.cube_views.get? 0 = some (sampleViewer 0) ∧
    sampleLayout.cube_views.get? 1 = some (sampleViewer 1) ∧
    (sampleCombo 0).currentData = some fluxComponent ∧
    dqComponent ∈ (sampleCombo 0).items ∧
    sampleLayout.start_smoothing_preview (some dqComponent) = some samplePreviewStarted ∧
    samplePreviewStarted.end_smoothing_preview = some samplePreviewEnded ∧
    ((∃ d0cb, samplePreviewEnded.combos.get? 0 = some d0cb ∧
      d0cb.currentData = some fluxComponent) ∧
    (∃ d1cb, samplePreviewEnded.combos.get? 1 = some d1cb ∧
      d1cb.currentData = some fluxComponent) ∧
    (∃ w0, samplePreviewEnded.cube_views.get? 0 = some w0 ∧
      w0.displayed_component = some fluxComponent ∧
      w0.is_smoothing_preview_active = false) ∧
    (∃ w1, samplePreviewEnded.cube_views.get? 1 = some w1 ∧
      w1.displayed_component = some fluxComponent ∧
      w1.is_smoothing_preview_active = false) ∧
    samplePreviewEnded.original_components = []) :=
  ⟨rfl, rfl, rfl, rfl, rfl, by decide, rfl, rfl,
    C7_smoothing_preview_round_trip sampleLayout samplePreviewStarted
      samplePreviewEnded (sampleCombo 0) (sampleCombo 0) (sampleViewer 0)
      (sampleViewer 1) dqComponent fluxComponent fluxComponent
      rfl rfl rfl rfl rfl rfl (by decide) (by decide) rfl rfl⟩
